import Mathlib

/-!
Verification development for the ontor OntoEditor core (src/ontor/ontor.py).

Shallow embedding of the functions the specification talks about: the
batch axiom builder (add_axioms, _add_restr_to_def, _dp_constraint,
_check_available_vals), the reasoning orchestrator (reasoning,
_analyze_pellet_results, _extract_pellet_explanation) and the CLI prompt
(_bool_user_interaction).

Modelling conventions: values carried in the positional tuples are optional
rationals and strings, and Python truthiness is modelled explicitly (note
that the number 0 and the empty string are falsy, which matters for the
emptiness tests the source performs).  Fallible code returns Except, with
the PyError type standing for the uncaught Python exceptions the code can
raise.  Log messages keep the fixed text of the source f-strings; the
interpolated data is omitted.
-/

set_option autoImplicit false

deriving instance DecidableEq for Except

namespace Ontor

/-- Python truthiness of an optional numeric field: None and 0 are falsy. -/
def qtruthy : Option ℚ → Bool
  | none => false
  | some x => decide (x ≠ 0)

/-- Python truthiness of a string field: only the empty string is falsy. -/
def struthy (s : String) : Bool := !s.isEmpty

/-- Uncaught Python exceptions of the embedded code. -/
inductive PyError where
  | keyError (k : String)
  | indexError
  | typeError
  | attributeError
  | unboundLocalError (v : String)
  deriving DecidableEq

/-- Primitive datatypes supported by OntoEditor (keys of _dp_range_types). -/
inductive PrimType where
  | boolean
  | float
  | integer
  | string
  | date
  | time
  | datetime
  deriving DecidableEq

/-- list(self._dp_range_types.keys()). -/
def dpRangeTypeNames : List String :=
  ["boolean", "float", "integer", "string", "date", "time", "datetime"]

/-- Indexing the _dp_range_types dict: an unknown key raises KeyError. -/
def dpRangeTypesLookup : String → Except PyError PrimType
  | "boolean" => .ok .boolean
  | "float" => .ok .float
  | "integer" => .ok .integer
  | "string" => .ok .string
  | "date" => .ok .date
  | "time" => .ok .time
  | "datetime" => .ok .datetime
  | k => .error (.keyError k)

/-- The dpinfo sublist axiom[7:13] of an axiom tuple, in positional order:
[dprange, min-exclusive, min-inclusive, exact, max-inclusive, max-exclusive]. -/
structure DpInfo where
  range : String
  minex : Option ℚ
  minin : Option ℚ
  exactv : Option ℚ
  maxin : Option ℚ
  maxex : Option ℚ
  deriving DecidableEq

/-- Python truthiness of each dpinfo slot, in positional order. -/
def DpInfo.truths (d : DpInfo) : List Bool :=
  [struthy d.range, qtruthy d.minex, qtruthy d.minin, qtruthy d.exactv,
   qtruthy d.maxin, qtruthy d.maxex]

/-- any(dpinfo), as tested by _add_restr_to_def. -/
def DpInfo.anyTruthy (d : DpInfo) : Bool := d.truths.any id

/-- Embedding of _check_available_vals: every expected slot is truthy and
every other slot is falsy.  The assertion on index validity in the source
always holds at the call sites, which only pass indices 0 to 5 for the
six-element dpinfo list, so it is not modelled. -/
def check_available_vals (truths : List Bool) (expected : List ℕ) : Bool :=
  (expected.all fun i => truths.getD i false) &&
  !(((List.range truths.length).filter fun i => !(expected.contains i)).any
      fun i => truths.getD i false)

/-- A resolved datatype range: either the bare primitive type or a
ConstrainedDatatype carrying exactly the facet keywords that the source
passes in the corresponding branch. -/
inductive DpRange where
  | bare (t : PrimType)
  | constrained (t : PrimType) (minex minin maxin maxex : Option ℚ)
  deriving DecidableEq

/-- Facet semantics of a constrained datatype, as described by the data
model of the spec: inclusive and exclusive interval bounds narrowing the
value space of the primitive type (owlready2 ConstrainedDatatype is an
external collaborator; a bare type accepts every value of the type). -/
def DpRange.accepts : DpRange → ℚ → Bool
  | .bare _, _ => true
  | .constrained _ minex minin maxin maxex, x =>
      (match minex with | none => true | some b => decide (b < x)) &&
      (match minin with | none => true | some b => decide (b ≤ x)) &&
      (match maxin with | none => true | some b => decide (x ≤ b)) &&
      (match maxex with | none => true | some b => decide (x < b))

def msgUnexpectedDpRange : String := "unexpected dp range"

def msgUnexpectedDpRestriction : String := "unexpected dp range restriction"

/-- Embedding of _dp_constraint: resolve a dpinfo list to a datatype range.
Returns the warnings logged together with either the resolved range (none
models the source returning None, a logged rejection) or a raised error
(indexing the type table with an unknown range name raises KeyError). -/
def dp_constraint (d : DpInfo) : List String × Except PyError (Option DpRange) :=
  let logs := if d.range ∈ dpRangeTypeNames then [] else [msgUnexpectedDpRange]
  let t := d.truths
  if check_available_vals t [0] then
    (logs, (dpRangeTypesLookup d.range).map fun ty => some (.bare ty))
  else if check_available_vals t [0, 3] then
    (logs, (dpRangeTypesLookup d.range).map fun ty =>
      some (.constrained ty none d.exactv d.exactv none))
  else if check_available_vals t [0, 1, 4] then
    (logs, (dpRangeTypesLookup d.range).map fun ty =>
      some (.constrained ty d.minex none d.maxin none))
  else if check_available_vals t [0, 1, 5] then
    (logs, (dpRangeTypesLookup d.range).map fun ty =>
      some (.constrained ty d.minex none none d.maxex))
  else if check_available_vals t [0, 2, 4] then
    (logs, (dpRangeTypesLookup d.range).map fun ty =>
      some (.constrained ty none d.minin d.maxin none))
  else if check_available_vals t [0, 2, 5] then
    (logs, (dpRangeTypesLookup d.range).map fun ty =>
      some (.constrained ty none d.minin none d.maxex))
  else if check_available_vals t [0, 1] then
    (logs, (dpRangeTypesLookup d.range).map fun ty =>
      some (.constrained ty d.minex none none none))
  else if check_available_vals t [0, 2] then
    (logs, (dpRangeTypesLookup d.range).map fun ty =>
      some (.constrained ty none d.minin none none))
  else if check_available_vals t [0, 4] then
    (logs, (dpRangeTypesLookup d.range).map fun ty =>
      some (.constrained ty none none d.maxin none))
  else if check_available_vals t [0, 5] then
    (logs, (dpRangeTypesLookup d.range).map fun ty =>
      some (.constrained ty none none none d.maxex))
  else
    (logs ++ [msgUnexpectedDpRestriction], .ok none)

/-- The truthiness patterns of the nine bound-field combinations that reach
a ConstrainedDatatype branch of _dp_constraint (each pattern lists which of
the six dpinfo slots are truthy: the range name plus the populated bounds). -/
def boundCombos : List (List Bool) :=
  [[true, false, false, true, false, false],
   [true, true, false, false, true, false],
   [true, true, false, false, false, true],
   [true, false, true, false, true, false],
   [true, false, true, false, false, true],
   [true, true, false, false, false, false],
   [true, false, true, false, false, false],
   [true, false, false, false, true, false],
   [true, false, false, false, false, true]]

/-- A property reference in a restriction.  Inverse wraps the resolved
property object, which is None when the name did not resolve. -/
inductive PropRef where
  | direct (p : Option String)
  | inverse (p : Option String)
  deriving DecidableEq

/-- getattr(receiver, kind) raises AttributeError when the receiver is None;
an Inverse object is itself never None. -/
def PropRef.noneReceiver : PropRef → Bool
  | .direct none => true
  | _ => false

/-- The filler of a restriction: a class object (or None when the op-object
name did not resolve), a datatype range, or a coerced literal value.  The
literal coercion of the source is modelled as tagging the value with the
primitive type. -/
inductive Filler where
  | cls (c : Option String)
  | dt (r : DpRange)
  | lit (t : PrimType) (v : ℚ)
  deriving DecidableEq

/-- The restriction object built by _add_restr_to_def, with the optional
negation wrapper recorded in the negated flag. -/
structure Restriction where
  prop : PropRef
  kind : String
  cardin : Option ℚ
  filler : Filler
  negated : Bool
  deriving DecidableEq

/-- The resinfo list [prop, inverted, p_type, cardin, negated]; prop is the
resolution result of onto[axiom[2]]. -/
structure ResInfo where
  prop : Option String
  inverted : Bool
  ptype : String
  cardin : Option ℚ
  negated : Bool
  deriving DecidableEq

def msgDpInverted : String := "invalid dp constraint - dp may not be inverted"

def msgInvalidDp : String := "invalid dp constraint"

def msgQualifiedDp : String :=
  "qualified cardinality restrictions currently not supported for DPs"

def msgBothOpDp : String := "restriction includes both op and dp"

def msgUnexpectedCardinality : String := "unexpected cardinality definition"

/-- Lines 288-299 of the source: inversion wrapping, cardinality dispatch
and negation wrapping.  Returns the warnings logged and the restriction to
append; none models the source logging and returning without appending. -/
def buildRestriction (ri : ResInfo) (obj : Filler) :
    List String × Except PyError (Option Restriction) :=
  let pr : PropRef := if ri.inverted then .inverse ri.prop else .direct ri.prop
  if (ri.ptype = "some" ∨ ri.ptype = "only" ∨ ri.ptype = "value") ∧
      qtruthy ri.cardin = false then
    if pr.noneReceiver then ([], .error .attributeError)
    else ([], .ok (some ⟨pr, ri.ptype, none, obj, ri.negated⟩))
  else if (ri.ptype = "exactly" ∨ ri.ptype = "max" ∨ ri.ptype = "min") ∧
      qtruthy ri.cardin = true then
    if pr.noneReceiver then ([], .error .attributeError)
    else ([], .ok (some ⟨pr, ri.ptype, ri.cardin, obj, ri.negated⟩))
  else
    ([msgUnexpectedCardinality], .ok none)

/-- Embedding of _add_restr_to_def.  The mutation of the class definition
list is returned as the optional restriction to append; the warnings logged
are returned alongside. -/
def add_restr_to_def (ri : ResInfo) (opObj : Option String) (d : DpInfo) :
    List String × Except PyError (Option Restriction) :=
  if opObj.isSome = true ∧ d.anyTruthy = false then
    buildRestriction ri (.cls opObj)
  else if opObj.isSome = false ∧ d.anyTruthy = true then
    if ri.inverted then ([msgDpInverted], .ok none)
    else
      let step : List String × Except PyError (Option Filler) :=
        if ri.ptype = "some" ∨ ri.ptype = "only" then
          match dp_constraint d with
          | (ls, .error e) => (ls, .error e)
          | (ls, .ok o) => (ls, .ok (o.map .dt))
        else if ri.ptype = "value" ∧ qtruthy d.exactv = true then
          match dpRangeTypesLookup d.range with
          | .error e => ([], .error e)
          | .ok ty => ([], .ok (d.exactv.map (Filler.lit ty)))
        else ([], .ok none)
      match step with
      | (ls, .error e) => (ls, .error e)
      | (ls, .ok none) => (ls ++ [msgInvalidDp], .ok none)
      | (ls, .ok (some obj)) =>
          if ri.ptype = "exactly" ∨ ri.ptype = "max" ∨ ri.ptype = "min" then
            (ls ++ [msgQualifiedDp], .ok none)
          else
            let br := buildRestriction ri obj
            (ls ++ br.1, br.2)
  else
    ([msgBothOpDp], .ok none)

/-- A positional axiom tuple, following the docstring of add_axioms:
[class, superclass, property, inverted, cardinality type, cardinality,
op-object, dp-range, dp-min-ex, dp-min-in, dp-exact, dp-max-in, dp-max-ex,
negated, equivalence]. -/
structure AxTuple where
  cls : String
  sup : String
  prop : String
  inverted : Bool
  ptype : String
  cardin : Option ℚ
  opObj : String
  dpRange : String
  minex : Option ℚ
  minin : Option ℚ
  exactv : Option ℚ
  maxin : Option ℚ
  maxex : Option ℚ
  negated : Bool
  equiv : Bool
  deriving DecidableEq

/-- An entry of a class definition list (is_a or equivalent_to): either a
plain reference to another class (None when the appended lookup failed) or
a restriction object. -/
inductive ClsEntry where
  | ref (c : Option String)
  | restr (r : Restriction)
  deriving DecidableEq

structure ClassDef where
  is_a : List ClsEntry
  equivalent_to : List ClsEntry
  deriving DecidableEq

/-- The ontology state seen by the axiom builder: named classes with their
definition lists, the names of declared properties, the log, and the number
of times the ontology file has been saved. -/
structure BuilderState where
  classes : List (String × ClassDef)
  props : List String
  logs : List String
  saves : ℕ
  deriving DecidableEq

/-- onto[name]: resolve an entity by name, None when absent (owlready
searches classes and properties alike). -/
def resolveAny (st : BuilderState) (n : String) : Option String :=
  if (st.classes.any fun p => p.1 == n) || st.props.contains n then some n
  else none

def logw (st : BuilderState) (m : String) : BuilderState :=
  { st with logs := st.logs ++ [m] }

def updateClass (st : BuilderState) (n : String) (f : ClassDef → ClassDef) :
    BuilderState :=
  { st with classes := st.classes.map fun p => if p.1 = n then (p.1, f p.2) else p }

/-- types.new_class(name, (parent,)): creates the class when the name is
new; owlready merges a re-declared class with the existing entity of the
same IRI, extending its parent list.  The parent none stands for Thing. -/
def new_class (st : BuilderState) (n : String) (parent : Option String) :
    BuilderState :=
  if st.classes.any fun p => p.1 == n then
    updateClass st n fun cd => { cd with is_a := cd.is_a ++ [.ref parent] }
  else
    { st with classes := st.classes ++ [(n, ⟨[.ref parent], []⟩)] }

def msgNoClass : String := "no class defined"

def msgUnexpectedInput : String := "unexpected input"

/-- Line 241 of the source: no property, cardinality type, cardinality or
op-object field is populated, so the tuple only declares a class. -/
def AxTuple.noRestrFields (ax : AxTuple) : Bool :=
  !(struthy ax.prop) && !(struthy ax.ptype) && !(qtruthy ax.cardin) &&
  !(struthy ax.opObj)

/-- Line 243 of the source: property, cardinality type and a filler field
(op-object or dp-range) are all populated. -/
def AxTuple.completeTriple (ax : AxTuple) : Bool :=
  (struthy ax.prop && struthy ax.ptype && struthy ax.opObj) ||
  (struthy ax.prop && struthy ax.ptype && struthy ax.dpRange)

/-- The class-creation block of an add_axioms iteration (source lines
232-240): create or extend the class named by the tuple, or log that no
class is defined, leaving the my_class local untouched.  A superclass name
that does not resolve makes types.new_class raise TypeError (its parent
tuple then holds None). -/
def classStep (st : BuilderState) (myc : Option String) (ax : AxTuple) :
    Except PyError (BuilderState × Option String) :=
  if struthy ax.cls ∧ struthy ax.sup ∧ ax.equiv = false then
    match resolveAny st ax.sup with
    | none => .error .typeError
    | some p => .ok (new_class st ax.cls (some p), some ax.cls)
  else if struthy ax.cls ∧ struthy ax.sup ∧ ax.equiv = true then
    let st1 := new_class st ax.cls none
    .ok (updateClass st1 ax.cls fun cd =>
          { cd with equivalent_to := cd.equivalent_to ++ [.ref (resolveAny st1 ax.sup)] },
        some ax.cls)
  else if struthy ax.cls ∧ ¬ struthy ax.sup then
    .ok (new_class st ax.cls none, some ax.cls)
  else
    .ok (logw st msgNoClass, myc)

/-- One iteration of the add_axioms loop (source lines 231-252).  The
second component threads the Python local my_class across iterations; it is
none before any iteration has assigned it, and accessing it in that state
raises UnboundLocalError, exactly as in the source where a tuple without a
class skips the assignment but later lines still read my_class. -/
def axiomStep (st : BuilderState) (myc : Option String) (ax : AxTuple) :
    Except PyError (BuilderState × Option String) :=
  match classStep st myc ax with
  | .error e => .error e
  | .ok p =>
    let st1 := p.1
    let myc1 := p.2
    if ax.noRestrFields then .ok (st1, myc1)
    else if ax.completeTriple then
      match myc1 with
      | none => .error (.unboundLocalError "my_class")
      | some c =>
        let ri : ResInfo :=
          ⟨resolveAny st1 ax.prop, ax.inverted, ax.ptype, ax.cardin, ax.negated⟩
        let d : DpInfo := ⟨ax.dpRange, ax.minex, ax.minin, ax.exactv, ax.maxin, ax.maxex⟩
        let res := add_restr_to_def ri (resolveAny st1 ax.opObj) d
        match res.2 with
        | .error e => .error e
        | .ok none => .ok ({ st1 with logs := st1.logs ++ res.1 }, myc1)
        | .ok (some r) =>
          let st2 := { st1 with logs := st1.logs ++ res.1 }
          if ax.equiv then
            .ok (updateClass st2 c fun cd =>
                  { cd with equivalent_to := cd.equivalent_to ++ [.restr r] }, myc1)
          else
            .ok (updateClass st2 c fun cd =>
                  { cd with is_a := cd.is_a ++ [.restr r] }, myc1)
    else .ok (logw st1 msgUnexpectedInput, myc1)

/-- The for-loop of add_axioms, threading the my_class local. -/
def addAxiomsLoop : BuilderState → Option String → List AxTuple →
    Except PyError BuilderState
  | st, _, [] => .ok st
  | st, myc, ax :: rest =>
    match axiomStep st myc ax with
    | .error e => .error e
    | .ok (st1, myc1) => addAxiomsLoop st1 myc1 rest

/-- self.onto.save(file=self.filename). -/
def saveOnto (st : BuilderState) : BuilderState := { st with saves := st.saves + 1 }

/-- Embedding of add_axioms: iterate over the batch, then persist once.  An
exception raised by an iteration propagates and the save is never reached. -/
def add_axioms (st : BuilderState) (batch : List AxTuple) :
    Except PyError BuilderState :=
  (addAxiomsLoop st none batch).map saveOnto

/-- Outcome of _bool_user_interaction: an answer for y or n, or a process
exit for q. -/
inductive UIResult where
  | answer (b : Bool)
  | exits (code : ℕ)
  deriving DecidableEq

/-- The process exit code of a successful run. -/
def successExitCode : ℕ := 0

/-- Embedding of _bool_user_interaction over the stream of CLI inputs: the
first input is read, and the while loop consumes further inputs (printing a
re-prompt) until one of y, n, q appears, case-sensitively; y and n return
an answer, q prints a message and calls sys.exit(0).  The value none models
exhausting the input stream. -/
def bool_user_interaction : List String → Option UIResult
  | [] => none
  | u :: rest =>
    if u = "y" ∨ u = "n" ∨ u = "q" then
      if u = "y" then some (.answer true)
      else if u = "n" then some (.answer false)
      else some (.exits 0)
    else bool_user_interaction rest

/-- The marker line of the regex in _extract_pellet_explanation. -/
def explMarker : List Char := "Explanation(s): \n".data

/-- Lazy capture of the regex group in DOTALL mode: split off the shortest
prefix that is followed by a blank line, returning the prefix and the text
after the two newlines; none when no blank line follows. -/
def splitAtBlank : List Char → Option (List Char × List Char)
  | [] => none
  | [_] => none
  | '\n' :: '\n' :: rest => some ([], rest)
  | c :: rest =>
    match splitAtBlank rest with
    | none => none
    | some (b, r) => some (c :: b, r)

/-- Non-overlapping scan of re.findall for the pattern: the marker followed
by a lazily captured block terminated by a blank line.  After a match the
scan resumes after the blank line; at a position where the marker matches
but no blank line follows, and at non-matching positions, the scan advances
one character.  The fuel only bounds the recursion; the input length is
always sufficient because every step strictly shortens the remaining
input. -/
def findBlocksFuel : ℕ → List Char → List (List Char)
  | 0, _ => []
  | _ + 1, [] => []
  | fuel + 1, c :: rest =>
    if (c :: rest).take explMarker.length = explMarker then
      match splitAtBlank ((c :: rest).drop explMarker.length) with
      | some (b, r) => b :: findBlocksFuel fuel r
      | none => findBlocksFuel fuel rest
    else findBlocksFuel fuel rest

def findExplBlocks (s : List Char) : List (List Char) := findBlocksFuel s.length s

/-- str.split(sep) for a single separator character, keeping empty pieces. -/
def splitOnChar (sep : Char) : List Char → List (List Char)
  | [] => [[]]
  | c :: rest =>
    if c = sep then [] :: splitOnChar sep rest
    else
      match splitOnChar sep rest with
      | [] => [[c]]
      | l :: ls => (c :: l) :: ls

/-- Splitting at every whitespace character, keeping empty pieces. -/
def splitWs : List Char → List (List Char)
  | [] => [[]]
  | c :: rest =>
    if c.isWhitespace then [] :: splitWs rest
    else
      match splitWs rest with
      | [] => [[c]]
      | l :: ls => (c :: l) :: ls

/-- str.split() with no argument: split on whitespace, dropping empties. -/
def pyWords (s : String) : List String :=
  ((splitWs s.data).map String.mk).filter fun w => !w.isEmpty

/-- Embedding of _extract_pellet_explanation: the de-duplicated blocks (the
Python set is modelled as order-insensitive de-duplication) and, per block,
the whitespace-split tokens of each line after stripping the five-character
indent. -/
def extract_pellet_explanation (tb : String) :
    List String × List (List (List String)) :=
  let res := ((findExplBlocks tb.data).map fun l => String.mk l).dedup
  if res.isEmpty then (res, [])
  else
    let expls := res.map fun expl =>
      (splitOnChar '\n' expl.data).map fun l => String.mk (l.drop 5)
    (res, expls.map fun block => block.map pyWords)

/-- Embedding of _analyze_pellet_results: collect, over every line of every
block, the first token when it resolves to a class of the live ontology,
and de-duplicate.  Reading token 0 of an empty split line raises
IndexError; with no blocks at all the function returns the empty list. -/
def analyze_pellet_results (liveClasses : List String) (tb : String) :
    Except PyError (List String) :=
  let ex := extract_pellet_explanation tb
  if ex.1.isEmpty then .ok []
  else if ex.2.any fun block => block.any fun a => a.isEmpty then
    .error .indexError
  else
    .ok (((ex.2.flatMap fun block => block.filterMap fun a => a.head?).filter
      fun n => liveClasses.contains n).dedup)

/-- Ontology contents relevant to the orchestrator: the class names. -/
abbrev Onto := List String

/-- The orchestrator state: the live in-memory ontology (self.onto), the
persisted ontology file, and the log. -/
structure RState where
  live : Onto
  file : Onto
  logs : List String
  deriving DecidableEq

/-- Outcome of one backend invocation on a snapshot: a clean list of
inconsistent classes together with the inferred snapshot, or a crash with
the traceback text. -/
inductive ROutcome where
  | classes (cs : List String) (inferred : Onto)
  | crash (tb : String)
  deriving DecidableEq

/-- The external reasoner, a black-box collaborator: a function of the
backend name, the debug flag (pellet is invoked with debug+1, so the flag
true means explanations on) and the loaded snapshot. -/
structure Oracle where
  run : String → Bool → Onto → ROutcome

def msgInconsistent : String := "the ontology is inconsistent"

def msgUnexpectedReasoner : String := "unexpected reasoner"

/-- Embedding of _check_reasoner: an unknown backend name only logs a
warning, nothing is raised and the run goes ahead. -/
def checkedSt (st : RState) (reasoner : String) : RState :=
  if reasoner ∈ ["hermit", "pellet"] then st
  else { st with logs := st.logs ++ [msgUnexpectedReasoner] }

/-- Source lines 601-607: when the report is nonempty, log a warning and
strip the bottom marker Nothing (list remove drops its first occurrence);
otherwise, when save is set, persist the inferred snapshot as the new file
and reload the live ontology from it. -/
def postProcess (st : RState) (cs : List String) (inferred : Onto)
    (save : Bool) : List String × RState :=
  if cs.isEmpty = false then
    (cs.erase "Nothing", { st with logs := st.logs ++ [msgInconsistent] })
  else if save then (cs, { st with file := inferred, live := inferred })
  else (cs, st)

/-- Result of the orchestrator: the backend invocations in order, and
either a raised error or the returned report with the final state. -/
structure ReasoningOut where
  runs : List (String × Bool)
  result : Except PyError (List String × RState)
  deriving DecidableEq

/-- Embedding of reasoning (source lines 572-608).  A fresh snapshot is
loaded from the persisted file and handed to the backend; a crash under
pellet with debug set is analyzed for explanations, and any other crash
escalates exactly once into reasoning with pellet, save False and debug
True, whose own crashes are analyzed rather than escalated again. -/
def reasoning (oracle : Oracle) (st : RState) (reasoner : String)
    (save : Bool) (dbg : Bool) : ReasoningOut :=
  let st0 := checkedSt st reasoner
  match oracle.run reasoner dbg st0.file with
  | .classes cs inferred =>
      let p := postProcess st0 cs inferred save
      ⟨[(reasoner, dbg)], .ok p⟩
  | .crash tb =>
      if h : reasoner = "pellet" ∧ dbg = true then
        match analyze_pellet_results st0.live tb with
        | .error e => ⟨[(reasoner, dbg)], .error e⟩
        | .ok cs =>
            let p := postProcess st0 cs st0.file save
            ⟨[(reasoner, dbg)], .ok p⟩
      else
        match reasoning oracle st0 "pellet" false true with
        | ⟨subruns, .error e⟩ => ⟨(reasoner, dbg) :: subruns, .error e⟩
        | ⟨subruns, .ok (cs, st1)⟩ =>
            let p := postProcess st1 cs st0.file save
            ⟨(reasoner, dbg) :: subruns, .ok p⟩
termination_by (if reasoner = "pellet" ∧ dbg = true then 0 else 1 : ℕ)
decreasing_by
  rw [if_neg h]
  exact Nat.zero_lt_one

/-! Concrete inputs used by the counterexamples, evaluations and witnesses. -/

/-- An empty builder state. -/
def emptyB : BuilderState := ⟨[], [], [], 0⟩

/-- A builder state declaring a class A and a property p. -/
def abB : BuilderState := ⟨[("A", ⟨[.ref none], []⟩)], ["p"], [], 0⟩

/-- An axiom tuple that defines no class (empty class and superclass
fields) while the later restriction fields property, cardinality type and
op-object are populated. -/
def noClassAx : AxTuple :=
  ⟨"", "", "p", false, "some", none, "C", "", none, none, none, none, none,
   false, false⟩

/-- An axiom tuple that defines no class and whose restriction fields are
incomplete (only a cardinality is populated). -/
def strayCardAx : AxTuple :=
  ⟨"", "", "", false, "", some 2, "", "", none, none, none, none, none,
   false, false⟩

/-- An axiom tuple that only declares class B below A. -/
def declBAx : AxTuple :=
  ⟨"B", "A", "", false, "", none, "", "", none, none, none, none, none,
   false, false⟩

/-- The dpinfo of the boundary example: min_inclusive 0, max_exclusive 10
on the integer datatype. -/
def zeroTenDp : DpInfo := ⟨"integer", none, some 0, none, none, some 10⟩

/-- A pellet crash traceback carrying a single explanation block whose only
line names the class Foo. -/
def tbFoo : String :=
  "java.lang.RuntimeException: inconsistent\nExplanation(s): \n     Foo subClassOf Bar\n\nmore text"

/-- A crash traceback with no explanation block at all. -/
def tbPlain : String := "java.lang.OutOfMemoryError: GC overhead limit exceeded"

/-- An orchestrator state whose live ontology and persisted file hold the
classes Foo and Bar. -/
def stFooBar : RState := ⟨["Foo", "Bar"], ["Foo", "Bar"], []⟩

/-- A reasoner that crashes on every backend, producing the Foo explanation
only on the escalated explainable run. -/
def oracleFoo : Oracle :=
  ⟨fun r d _ => if r = "pellet" ∧ d = true then .crash tbFoo else .crash tbPlain⟩

/-- A reasoner that always crashes with a diagnostic that has no
explanation blocks. -/
def oracleBlockless : Oracle := ⟨fun _ _ _ => .crash tbPlain⟩

/-- A reasoner that always completes cleanly with no inconsistent classes,
inferring nothing beyond the snapshot. -/
def oracleConsistent : Oracle := ⟨fun _ _ snap => .classes [] snap⟩

/-- A reasoner that always completes cleanly, reporting the bottom marker
Nothing together with the class A. -/
def oracleNothingA : Oracle := ⟨fun _ _ snap => .classes ["Nothing", "A"] snap⟩

/-! Helper lemmas. -/

theorem dpRangeTypesLookup_not_mem (n : String) (h : n ∉ dpRangeTypeNames) :
    dpRangeTypesLookup n = .error (.keyError n) := by
  unfold dpRangeTypesLookup
  split <;> simp_all [dpRangeTypeNames]

/-! Theorems for claim C6. -/

/-- C6: the datatype-constraint resolver, given bounds min_inclusive 0 and
max_exclusive 10 on the integer primitive, does NOT produce the half-open
interval of the claim: because the bound 0 is falsy in Python, the
emptiness tests silently drop the lower bound and the branch for a sole
max_exclusive bound fires, so the produced constraint accepts -1, which
the claim says must be rejected (it does accept 0 and 9.999 and reject 10).
This evaluates the embedded code at the failing input of the code_bug. -/
theorem dp_constraint_zero_min_inclusive_dropped :
    dp_constraint zeroTenDp =
      ([], .ok (some (.constrained .integer none none none (some 10)))) ∧
    (DpRange.constrained .integer none none none (some 10)).accepts 0 = true ∧
    (DpRange.constrained .integer none none none (some 10)).accepts (9999 / 1000) = true ∧
    (DpRange.constrained .integer none none none (some 10)).accepts (-1) = true ∧
    (DpRange.constrained .integer none none none (some 10)).accepts 10 = false := by
  refine ⟨by decide, by decide, ?_, by decide, by decide⟩
  norm_num [DpRange.accepts]

/-! Theorems for claim C10. -/

/-- C10: given a datatype name that is not one of the seven supported
primitives together with populated bound fields (any of the nine valid
bound combinations, truthiness-wise), _dp_constraint logs the unexpected
dp range warning but then still indexes the primitive-type table with the
unknown name, raising an uncaught KeyError instead of returning the None
value that signals a logged rejection. -/
theorem dp_constraint_unknown_range_keyerror (d : DpInfo)
    (hname : d.range ∉ dpRangeTypeNames) (hcombo : d.truths ∈ boundCombos) :
    dp_constraint d = ([msgUnexpectedDpRange], .error (.keyError d.range)) := by
  have hlook := dpRangeTypesLookup_not_mem d.range hname
  unfold dp_constraint
  rw [if_neg hname]
  simp only [boundCombos, List.mem_cons, List.not_mem_nil, or_false] at hcombo
  rcases hcombo with h | h | h | h | h | h | h | h | h <;>
    rw [h] <;> simp +decide [hlook, Except.map]

/-- Witness for C10 at the unknown name decimal with min_inclusive 1 and
max_exclusive 10. -/
theorem dp_constraint_unknown_range_keyerror_witness :
    dp_constraint ⟨"decimal", none, some 1, none, none, some 10⟩ =
      ([msgUnexpectedDpRange], .error (.keyError "decimal")) :=
  dp_constraint_unknown_range_keyerror
    ⟨"decimal", none, some 1, none, none, some 10⟩ (by decide) (by decide)

/-! Theorems for claim C8. -/

/-- C8: for every axiom spec whose filler is a datatype constraint (some
datatype field is populated and no op-object resolves) and whose inverted
flag is set, _add_restr_to_def logs the rejection and returns without
appending any restriction, whatever the cardinality kind and the other
fields are. -/
theorem inverted_dp_restriction_rejected (ri : ResInfo) (opObj : Option String)
    (d : DpInfo) (hop : opObj = none) (hdp : d.anyTruthy = true)
    (hinv : ri.inverted = true) :
    add_restr_to_def ri opObj d = ([msgDpInverted], .ok none) := by
  subst hop
  unfold add_restr_to_def
  simp [hdp, hinv]

/-- Witness for C8: an inverted integer-datatype spec under the cardinality
kind some is rejected with the logged warning and no appended restriction. -/
theorem inverted_dp_restriction_rejected_witness :
    add_restr_to_def ⟨some "p", true, "some", none, false⟩ none
      ⟨"integer", none, none, none, none, some 5⟩ = ([msgDpInverted], .ok none) :=
  inverted_dp_restriction_rejected ⟨some "p", true, "some", none, false⟩ none
    ⟨"integer", none, none, none, none, some 5⟩ rfl (by decide) rfl

/-! Theorems for claim C9. -/

/-- C9: for every axiom spec with a datatype filler (some datatype field
populated, no op-object) and cardinality kind exactly, max or min,
_add_restr_to_def deterministically rejects: it logs a warning and returns
without appending any restriction, regardless of the other fields. -/
theorem qualified_cardinality_dp_rejected (ri : ResInfo) (opObj : Option String)
    (d : DpInfo) (hop : opObj = none) (hdp : d.anyTruthy = true)
    (hk : ri.ptype = "exactly" ∨ ri.ptype = "max" ∨ ri.ptype = "min") :
    ∃ w, w ≠ [] ∧ add_restr_to_def ri opObj d = (w, .ok none) := by
  subst hop
  by_cases hinv : ri.inverted = true
  · exact ⟨[msgDpInverted], by decide, by unfold add_restr_to_def; simp [hdp, hinv]⟩
  · refine ⟨[msgInvalidDp], by decide, ?_⟩
    unfold add_restr_to_def
    rcases hk with h | h | h <;> simp [hdp, hinv, h]

/-- Witness for C9: a float-datatype spec under the cardinality kind
exactly is rejected with a logged warning and no appended restriction. -/
theorem qualified_cardinality_dp_rejected_witness :
    ∃ w, w ≠ [] ∧ add_restr_to_def ⟨some "p", false, "exactly", some 2, false⟩
      none ⟨"float", none, none, none, none, some 5⟩ = (w, .ok none) :=
  qualified_cardinality_dp_rejected ⟨some "p", false, "exactly", some 2, false⟩
    none ⟨"float", none, none, none, none, some 5⟩ rfl (by decide) (.inl rfl)

/-! Theorems for claim C5. -/

/-- C5 counterexample: the claim states that the input q terminates the
process with an exit code distinct from the success exit code; evaluating
the prompt on the concrete input q shows it calls sys.exit(0), which IS the
success exit code, refuting the distinctness part of the claim. -/
theorem bool_user_interaction_quit_exits_success_code :
    bool_user_interaction ["q"] = some (.exits successExitCode) := by decide

/-- C5 amended: only the case-sensitive inputs y, n and q are accepted,
any other input causes a re-prompt consuming the next input, and the input
q terminates the whole process with exit code 0, the success exit code. -/
theorem bool_user_interaction_amended :
    (∀ (u : String) (rest : List String), ¬(u = "y" ∨ u = "n" ∨ u = "q") →
      bool_user_interaction (u :: rest) = bool_user_interaction rest) ∧
    (∀ rest, bool_user_interaction ("y" :: rest) = some (.answer true)) ∧
    (∀ rest, bool_user_interaction ("n" :: rest) = some (.answer false)) ∧
    (∀ rest, bool_user_interaction ("q" :: rest) = some (.exits successExitCode)) := by
  refine ⟨?_, fun rest => rfl, fun rest => rfl, fun rest => rfl⟩
  intro u rest h
  conv_lhs => unfold bool_user_interaction
  rw [if_neg h]

/-- Witness for C5: the invalid upper-case input Y re-prompts, and each of
the three accepted inputs produces its outcome, q exiting with code 0. -/
theorem bool_user_interaction_amended_witness :
    bool_user_interaction ["Y", "y"] = bool_user_interaction ["y"] ∧
    bool_user_interaction ["y"] = some (.answer true) ∧
    bool_user_interaction ["n"] = some (.answer false) ∧
    bool_user_interaction ["q"] = some (.exits successExitCode) :=
  ⟨bool_user_interaction_amended.1 "Y" ["y"] (by decide),
   bool_user_interaction_amended.2.1 [],
   bool_user_interaction_amended.2.2.1 [],
   bool_user_interaction_amended.2.2.2 []⟩

/-! Theorems for claim C1. -/

theorem logw_saves (st : BuilderState) (m : String) : (logw st m).saves = st.saves := rfl

theorem updateClass_saves (st : BuilderState) (n : String) (f : ClassDef → ClassDef) :
    (updateClass st n f).saves = st.saves := rfl

theorem new_class_saves (st : BuilderState) (n : String) (p : Option String) :
    (new_class st n p).saves = st.saves := by
  unfold new_class
  split <;> rfl

theorem classStep_saves (st : BuilderState) (myc : Option String) (ax : AxTuple)
    (p : BuilderState × Option String)
    (h : classStep st myc ax = .ok p) : p.1.saves = st.saves := by
  unfold classStep at h
  repeat' split at h
  all_goals
    first
    | (cases h
       simp [updateClass_saves, new_class_saves, logw_saves])
    | cases h

theorem axiomStep_saves (st : BuilderState) (myc : Option String) (ax : AxTuple)
    (st1 : BuilderState) (myc1 : Option String)
    (h : axiomStep st myc ax = .ok (st1, myc1)) : st1.saves = st.saves := by
  unfold axiomStep at h
  cases hcs : classStep st myc ax with
  | error e => rw [hcs] at h; cases h
  | ok p =>
    have hp : p.1.saves = st.saves := classStep_saves st myc ax p hcs
    simp only [hcs] at h
    repeat' split at h
    all_goals
      first
      | (cases h
         simp [hp, updateClass_saves, new_class_saves, logw_saves])
      | cases h

theorem classStep_noclass (st : BuilderState) (myc : Option String)
    (ax : AxTuple) (hcls : struthy ax.cls = false) :
    classStep st myc ax = .ok (logw st msgNoClass, myc) := by
  unfold classStep
  simp [hcls]

theorem addAxiomsLoop_saves (batch : List AxTuple) : ∀ (st : BuilderState)
    (myc : Option String) (st1 : BuilderState),
    addAxiomsLoop st myc batch = .ok st1 → st1.saves = st.saves := by
  induction batch with
  | nil =>
    intro st myc st1 h
    cases h
    rfl
  | cons ax rest ih =>
    intro st myc st1 h
    unfold addAxiomsLoop at h
    cases hstep : axiomStep st myc ax with
    | error e => rw [hstep] at h; cases h
    | ok p =>
      rw [hstep] at h
      calc st1.saves = p.1.saves := ih p.1 p.2 st1 h
        _ = st.saves := axiomStep_saves st myc ax p.1 p.2 (by rw [hstep])

/-- C1 counterexample: a batch consisting of one spec that defines no class
while its restriction fields (property, cardinality type and op-object) are
populated is NOT logged-and-skipped: the iteration reads the unassigned
my_class local and raises UnboundLocalError, so the batch aborts with an
uncaught exception and is never persisted (no saved state is produced), in
contradiction with the claim. -/
theorem add_axioms_noclass_raises_cex :
    add_axioms emptyB [noClassAx] = .error (.unboundLocalError "my_class") := by
  decide

/-- C1 amended: a spec that defines no class is logged; when its
restriction fields do not form a complete property, cardinality-type and
filler triple it is skipped without raising, leaving the state unchanged
apart from the log so every later spec is still processed, and a batch
whose loop completes is persisted exactly once at the end (the loop itself
never persists); but a no-class spec whose restriction fields are complete
raises an uncaught error that aborts the batch unpersisted, as the
counterexample shows. -/
theorem add_axioms_reject_skip_single_save :
    (∀ (st : BuilderState) (myc : Option String) (ax : AxTuple),
        struthy ax.cls = false → ax.completeTriple = false →
        ∃ w, w ≠ [] ∧
          axiomStep st myc ax = .ok ({ st with logs := st.logs ++ w }, myc)) ∧
    (∀ (st : BuilderState) (batch : List AxTuple) (st1 : BuilderState),
        addAxiomsLoop st none batch = .ok st1 →
        add_axioms st batch = .ok (saveOnto st1) ∧ st1.saves = st.saves) := by
  constructor
  · intro st myc ax hcls hct
    by_cases hnf : ax.noRestrFields = true
    · refine ⟨[msgNoClass], by decide, ?_⟩
      unfold axiomStep
      rw [classStep_noclass st myc ax hcls]
      simp [hnf, logw]
    · refine ⟨[msgNoClass, msgUnexpectedInput], by decide, ?_⟩
      unfold axiomStep
      rw [classStep_noclass st myc ax hcls]
      simp [hnf, hct, logw]
  · intro st batch st1 h
    refine ⟨?_, addAxiomsLoop_saves batch st none st1 h⟩
    unfold add_axioms
    rw [h]
    rfl

/-- Witness for C1 amended: a stray-cardinality spec without a class is
skipped with two logged warnings and an unchanged state, and a one-spec
batch declaring class B below A completes its loop and is persisted
exactly once. -/
theorem add_axioms_reject_skip_single_save_witness :
    (∃ w, w ≠ [] ∧ axiomStep abB (some "A") strayCardAx =
        .ok ({ abB with logs := abB.logs ++ w }, some "A")) ∧
    (add_axioms abB [declBAx] =
        .ok (saveOnto ⟨[("A", ⟨[.ref none], []⟩), ("B", ⟨[.ref (some "A")], []⟩)],
          ["p"], [], 0⟩) ∧
      (⟨[("A", ⟨[.ref none], []⟩), ("B", ⟨[.ref (some "A")], []⟩)],
          ["p"], [], 0⟩ : BuilderState).saves = abB.saves) :=
  ⟨add_axioms_reject_skip_single_save.1 abB (some "A") strayCardAx (by decide) (by decide),
   add_axioms_reject_skip_single_save.2 abB [declBAx]
     ⟨[("A", ⟨[.ref none], []⟩), ("B", ⟨[.ref (some "A")], []⟩)], ["p"], [], 0⟩
     (by decide)⟩

/-! Helper lemmas for the reasoning orchestrator. -/

theorem checkedSt_file (st : RState) (r : String) : (checkedSt st r).file = st.file := by
  unfold checkedSt
  split <;> rfl

theorem checkedSt_live (st : RState) (r : String) : (checkedSt st r).live = st.live := by
  unfold checkedSt
  split <;> rfl

theorem checkedSt_pellet (st : RState) : checkedSt st "pellet" = st := rfl

theorem reasoning_run_classes (oracle : Oracle) (st : RState) (r : String)
    (sv d : Bool) (cs : List String) (inf : Onto)
    (h : oracle.run r d st.file = .classes cs inf) :
    reasoning oracle st r sv d =
      ⟨[(r, d)], .ok (postProcess (checkedSt st r) cs inf sv)⟩ := by
  rw [reasoning.eq_def]
  simp only [checkedSt_file, h]

theorem reasoning_pellet_dbg_crash (oracle : Oracle) (st : RState) (sv : Bool)
    (tb : String) (h : oracle.run "pellet" true st.file = .crash tb) :
    reasoning oracle st "pellet" sv true =
      match analyze_pellet_results st.live tb with
      | .error e => ⟨[("pellet", true)], .error e⟩
      | .ok cs => ⟨[("pellet", true)], .ok (postProcess st cs st.file sv)⟩ := by
  rw [reasoning.eq_def]
  simp only [checkedSt_pellet, h]
  simp

theorem reasoning_crash_escalates (oracle : Oracle) (st : RState) (r : String)
    (sv d : Bool) (tb : String) (hne : ¬(r = "pellet" ∧ d = true))
    (h : oracle.run r d st.file = .crash tb) :
    reasoning oracle st r sv d =
      match reasoning oracle (checkedSt st r) "pellet" false true with
      | ⟨subruns, .error e⟩ => ⟨(r, d) :: subruns, .error e⟩
      | ⟨subruns, .ok (cs, st1)⟩ =>
          ⟨(r, d) :: subruns, .ok (postProcess st1 cs st.file sv)⟩ := by
  rw [reasoning.eq_def]
  simp only [checkedSt_file, h]
  rw [dif_neg hne]

theorem postProcess_nodup_no_bottom (st : RState) (cs : List String)
    (inf : Onto) (sv : Bool) (h : cs.Nodup) :
    (postProcess st cs inf sv).1.Nodup ∧ "Nothing" ∉ (postProcess st cs inf sv).1 := by
  unfold postProcess
  by_cases hcs : cs.isEmpty = false
  · rw [if_pos hcs]
    refine ⟨h.erase "Nothing", fun hmem => ?_⟩
    rcases (List.Nodup.mem_erase_iff h).mp hmem with ⟨hne, _⟩
    exact hne rfl
  · rw [if_neg hcs]
    have : cs = [] := by
      cases cs with
      | nil => rfl
      | cons a l => simp [List.isEmpty] at hcs
    subst this
    split <;> simp

theorem analyze_ok_nodup (live : List String) (tb : String) (cs : List String)
    (h : analyze_pellet_results live tb = .ok cs) : cs.Nodup := by
  simp only [analyze_pellet_results] at h
  split at h
  · cases h
    exact List.nodup_nil
  · split at h
    · cases h
    · cases h
      exact List.nodup_dedup _

theorem reasoning_pellet_true_ok_nodup (oracle : Oracle)
    (hnd : ∀ (r : String) (d : Bool) (snap : Onto) (cs : List String) (inf : Onto),
      oracle.run r d snap = .classes cs inf → cs.Nodup)
    (st : RState) (sv : Bool) (cs : List String) (st1 : RState)
    (h : (reasoning oracle st "pellet" sv true).result = .ok (cs, st1)) :
    cs.Nodup ∧ "Nothing" ∉ cs := by
  cases hrun : oracle.run "pellet" true st.file with
  | classes cs2 inf =>
    rw [reasoning_run_classes oracle st "pellet" sv true cs2 inf hrun] at h
    rw [checkedSt_pellet] at h
    injection h with h1
    have h2 := congrArg Prod.fst h1
    simp only [Prod.fst] at h2
    rw [← h2]
    exact postProcess_nodup_no_bottom st cs2 inf sv (hnd _ _ _ _ _ hrun)
  | crash tb =>
    rw [reasoning_pellet_dbg_crash oracle st sv tb hrun] at h
    cases hana : analyze_pellet_results st.live tb with
    | error e =>
      rw [hana] at h
      cases h
    | ok cs2 =>
      rw [hana] at h
      injection h with h1
      have h2 := congrArg Prod.fst h1
      simp only [Prod.fst] at h2
      rw [← h2]
      exact postProcess_nodup_no_bottom st cs2 st.file sv
        (analyze_ok_nodup st.live tb cs2 hana)

theorem reasoning_ok_no_bottom (oracle : Oracle)
    (hnd : ∀ (r : String) (d : Bool) (snap : Onto) (cs : List String) (inf : Onto),
      oracle.run r d snap = .classes cs inf → cs.Nodup)
    (st : RState) (r : String) (sv d : Bool) (cs : List String) (st1 : RState)
    (h : (reasoning oracle st r sv d).result = .ok (cs, st1)) : "Nothing" ∉ cs := by
  by_cases hpd : r = "pellet" ∧ d = true
  · obtain ⟨h1, h2⟩ := hpd
    subst h1 h2
    exact (reasoning_pellet_true_ok_nodup oracle hnd st sv cs st1 h).2
  · cases hrun : oracle.run r d st.file with
    | classes cs2 inf =>
      rw [reasoning_run_classes oracle st r sv d cs2 inf hrun] at h
      injection h with h1
      have h2 := congrArg Prod.fst h1
      simp only [Prod.fst] at h2
      rw [← h2]
      exact (postProcess_nodup_no_bottom (checkedSt st r) cs2 inf sv (hnd _ _ _ _ _ hrun)).2
    | crash tb =>
      rw [reasoning_crash_escalates oracle st r sv d tb hpd hrun] at h
      rcases hsub : reasoning oracle (checkedSt st r) "pellet" false true with ⟨subruns, subres⟩
      rw [hsub] at h
      cases subres with
      | error e => cases h
      | ok q =>
        obtain ⟨cs2, st2⟩ := q
        have hq : (reasoning oracle (checkedSt st r) "pellet" false true).result =
            .ok (cs2, st2) := by rw [hsub]
        injection h with h1
        have h2 := congrArg Prod.fst h1
        simp only [Prod.fst] at h2
        rw [← h2]
        exact (postProcess_nodup_no_bottom st2 cs2 st.file sv
          (reasoning_pellet_true_ok_nodup oracle hnd (checkedSt st r) false cs2 st2 hq).1).2

theorem reasoning_runs_pellet_true (oracle : Oracle) (st : RState) (sv : Bool) :
    (reasoning oracle st "pellet" sv true).runs = [("pellet", true)] := by
  cases hrun : oracle.run "pellet" true st.file with
  | classes cs inf =>
    rw [reasoning_run_classes oracle st "pellet" sv true cs inf hrun]
  | crash tb =>
    rw [reasoning_pellet_dbg_crash oracle st sv tb hrun]
    cases analyze_pellet_results st.live tb <;> rfl

theorem reasoning_runs_le_two (oracle : Oracle) (st : RState) (r : String)
    (sv d : Bool) : (reasoning oracle st r sv d).runs.length ≤ 2 := by
  by_cases hpd : r = "pellet" ∧ d = true
  · obtain ⟨h1, h2⟩ := hpd
    subst h1 h2
    rw [reasoning_runs_pellet_true]
    decide
  · cases hrun : oracle.run r d st.file with
    | classes cs inf =>
      rw [reasoning_run_classes oracle st r sv d cs inf hrun]
      simp
    | crash tb =>
      rw [reasoning_crash_escalates oracle st r sv d tb hpd hrun]
      rcases hsub : reasoning oracle (checkedSt st r) "pellet" false true with ⟨subruns, subres⟩
      have hlen : subruns = [("pellet", true)] := by
        have := reasoning_runs_pellet_true oracle (checkedSt st r) false
        rw [hsub] at this
        exact this
      subst hlen
      cases subres with
      | error e => simp
      | ok q =>
        obtain ⟨cs2, st2⟩ := q
        simp

/-! Theorems for claim C2. -/

/-- C2: when the escalated explainable run crashes and its diagnostic text
contains no explanation blocks, the check does NOT return a value distinct
from the consistent empty report: the escalated check on the blockless
crash returns the plain empty list with the state unchanged, exactly the
same value as a clean consistent run, so the unparsed failure is
indistinguishable from consistency.  This evaluates the embedded code at
the failing input of the code_bug flagged by the design notes. -/
theorem unparsed_crash_indistinguishable_from_consistent :
    reasoning oracleBlockless stFooBar "hermit" false false =
      ⟨[("hermit", false), ("pellet", true)], .ok ([], stFooBar)⟩ ∧
    reasoning oracleConsistent stFooBar "hermit" false false =
      ⟨[("hermit", false)], .ok ([], stFooBar)⟩ := by
  constructor
  · rw [reasoning_crash_escalates oracleBlockless stFooBar "hermit" false false
      tbPlain (by decide) rfl]
    rw [show checkedSt stFooBar "hermit" = stFooBar from rfl]
    rw [reasoning_pellet_dbg_crash oracleBlockless stFooBar false tbPlain rfl]
    rw [show analyze_pellet_results stFooBar.live tbPlain = .ok [] from by decide]
    decide
  · rw [reasoning_run_classes oracleConsistent stFooBar "hermit" false false
      [] stFooBar.file rfl]
    decide

/-! Theorems for claim C3. -/

/-- C3: when the escalated explainable run crashes and the diagnostic
contains a single explanation block naming the class Foo, the check
returns exactly the de-duplicated report containing Foo alone, computed by
taking the first whitespace token of each indent-stripped line of each
block and keeping the tokens that resolve to live classes (Bar appears in
the block but not as a first token); and for every run of the orchestrator
whose backend reports duplicate-free class lists, the bottom marker
Nothing never appears in a returned report. -/
theorem escalated_single_block_report_and_no_bottom :
    (reasoning oracleFoo stFooBar "hermit" false false).result =
      .ok (["Foo"], ⟨["Foo", "Bar"], ["Foo", "Bar"],
        [msgInconsistent, msgInconsistent]⟩) ∧
    (∀ (oracle : Oracle),
      (∀ (r : String) (d : Bool) (snap : Onto) (cs : List String) (inf : Onto),
        oracle.run r d snap = .classes cs inf → cs.Nodup) →
      ∀ (st : RState) (r : String) (sv d : Bool) (cs : List String) (st1 : RState),
        (reasoning oracle st r sv d).result = .ok (cs, st1) → "Nothing" ∉ cs) := by
  constructor
  · rw [reasoning_crash_escalates oracleFoo stFooBar "hermit" false false
      tbPlain (by decide) rfl]
    rw [show checkedSt stFooBar "hermit" = stFooBar from rfl]
    rw [reasoning_pellet_dbg_crash oracleFoo stFooBar false tbFoo rfl]
    rw [show analyze_pellet_results stFooBar.live tbFoo = .ok ["Foo"] from by decide]
    decide
  · exact fun oracle hnd st r sv d cs st1 h =>
      reasoning_ok_no_bottom oracle hnd st r sv d cs st1 h

/-- Witness for C3: a clean run whose backend reports Nothing and A has the
report stripped to A, and the no-bottom part of the theorem applies to it. -/
theorem escalated_single_block_report_and_no_bottom_witness :
    (reasoning oracleNothingA stFooBar "hermit" false false).result =
      .ok (["A"], ⟨["Foo", "Bar"], ["Foo", "Bar"], [msgInconsistent]⟩) ∧
    "Nothing" ∉ (["A"] : List String) :=
  ⟨by
    rw [reasoning_run_classes oracleNothingA stFooBar "hermit" false false
      ["Nothing", "A"] stFooBar.file rfl]
    decide,
   escalated_single_block_report_and_no_bottom.2 oracleNothingA
    (by
      intro r d snap cs inf h
      simp only [oracleNothingA] at h
      injection h with h1 h2
      rw [← h1]
      decide)
    stFooBar "hermit" false false ["A"]
    ⟨["Foo", "Bar"], ["Foo", "Bar"], [msgInconsistent]⟩
    (by
      rw [reasoning_run_classes oracleNothingA stFooBar "hermit" false false
        ["Nothing", "A"] stFooBar.file rfl]
      decide)⟩

/-! Theorems for claim C4. -/

/-- C4: a check with persistence disabled against a consistent ontology
returns the empty report and modifies neither the live ontology nor the
persisted file; run twice in a row it returns empty both times and the
second call leaves the persisted file untouched as well. -/
theorem reasoning_consistent_nosave_frame (oracle : Oracle) (st : RState)
    (r : String) (inf : Onto) (h : oracle.run r false st.file = .classes [] inf) :
    ∃ st1 st2,
      (reasoning oracle st r false false).result = .ok ([], st1) ∧
      st1.live = st.live ∧ st1.file = st.file ∧
      (reasoning oracle st1 r false false).result = .ok ([], st2) ∧
      st2.live = st.live ∧ st2.file = st.file := by
  refine ⟨checkedSt st r, checkedSt (checkedSt st r) r, ?_,
    checkedSt_live st r, checkedSt_file st r, ?_, ?_, ?_⟩
  · rw [reasoning_run_classes oracle st r false false [] inf h]
    simp [postProcess]
  · have h2 : oracle.run r false (checkedSt st r).file = .classes [] inf := by
      rw [checkedSt_file]
      exact h
    rw [reasoning_run_classes oracle (checkedSt st r) r false false [] inf h2]
    simp [postProcess]
  · rw [checkedSt_live, checkedSt_live]
  · rw [checkedSt_file, checkedSt_file]

/-- Witness for C4 at a concrete consistent oracle and state. -/
theorem reasoning_consistent_nosave_frame_witness :
    ∃ st1 st2,
      (reasoning oracleConsistent stFooBar "hermit" false false).result = .ok ([], st1) ∧
      st1.live = stFooBar.live ∧ st1.file = stFooBar.file ∧
      (reasoning oracleConsistent st1 "hermit" false false).result = .ok ([], st2) ∧
      st2.live = stFooBar.live ∧ st2.file = stFooBar.file :=
  reasoning_consistent_nosave_frame oracleConsistent stFooBar "hermit"
    stFooBar.file rfl

/-! Theorems for claim C7. -/

/-- C7: whenever a reasoner run crashes and it was not already pellet with
explanations enabled, the check retries exactly once with pellet and debug
forced on (the recorded backend invocations are exactly the original one
followed by the escalated one), and no run of the orchestrator ever
invokes the backend more than twice, so the escalation depth is bounded
and the check terminates (the embedding is a total function). -/
theorem reasoning_single_escalation (oracle : Oracle) (st : RState)
    (r : String) (sv d : Bool) (tb : String) (hne : ¬(r = "pellet" ∧ d = true))
    (hcrash : oracle.run r d st.file = .crash tb) :
    (reasoning oracle st r sv d).runs = [(r, d), ("pellet", true)] ∧
    (∀ (oracle2 : Oracle) (st2 : RState) (r2 : String) (sv2 d2 : Bool),
      (reasoning oracle2 st2 r2 sv2 d2).runs.length ≤ 2) := by
  refine ⟨?_, fun o2 s2 r2 sv2 d2 => reasoning_runs_le_two o2 s2 r2 sv2 d2⟩
  rw [reasoning_crash_escalates oracle st r sv d tb hne hcrash]
  rcases hsub : reasoning oracle (checkedSt st r) "pellet" false true with ⟨subruns, subres⟩
  have hruns : subruns = [("pellet", true)] := by
    have hthis := reasoning_runs_pellet_true oracle (checkedSt st r) false
    rw [hsub] at hthis
    exact hthis
  subst hruns
  cases subres with
  | error e => rfl
  | ok q =>
    obtain ⟨cs2, st2⟩ := q
    rfl

/-- Witness for C7 at a crashing oracle, including the global two-run bound
at an unknown backend name. -/
theorem reasoning_single_escalation_witness :
    (reasoning oracleBlockless stFooBar "hermit" false false).runs =
      [("hermit", false), ("pellet", true)] ∧
    (reasoning oracleBlockless stFooBar "unknown" true false).runs.length ≤ 2 :=
  ⟨(reasoning_single_escalation oracleBlockless stFooBar "hermit" false false
      tbPlain (by decide) rfl).1,
   (reasoning_single_escalation oracleBlockless stFooBar "hermit" false false
      tbPlain (by decide) rfl).2 oracleBlockless stFooBar "unknown" true false⟩

end Ontor
